import Mathlib

/-!
Verification of the PaperFlow native scanner wrappers (TWAIN, SANE, WIA)
against their natural-language specification.

The C++ sources are thin N-API classes whose observable state is the pair
(isInitialized_, selectedDeviceId_).  Each method is embedded as a pure
function from that state (plus the JavaScript arguments) to a result
paired with the successor state.  A JavaScript exception thrown via
ThrowAsJavaScriptException is modelled as the error branch of Except; a
normally returned value is the ok branch.  JavaScript objects whose
fields are set conditionally are modelled with Option fields (none means
the field was never set on the object).
-/

namespace PaperFlow

/-- A JavaScript exception raised by the native layer: either
Napi::Error or Napi::TypeError, with its message. -/
inductive NapiError where
  | jsError (msg : String)
  | jsTypeError (msg : String)
deriving DecidableEq, Repr

/-- The capabilities object attached to an enumerated device
(twainWrapper.cpp, EnumerateDevices): every field is set. -/
structure DeviceCapabilities where
  hasFlatbed : Bool
  hasADF : Bool
  duplex : Bool
  resolutions : List Nat
  colorModes : List String
  paperSizes : List String
  maxWidth : Rat
  maxHeight : Rat
deriving DecidableEq, Repr

/-- A device record as built by EnumerateDevices. -/
structure ScannerDevice where
  id : String
  name : String
  manufacturer : String
  model : String
  available : Bool
  platform : String
  capabilities : DeviceCapabilities
deriving DecidableEq, Repr

/-- The object returned by GetCapabilities.  The TWAIN backend sets
hasFlatbed, hasADF and duplex; the SANE and WIA backends return an empty
object, i.e. all fields absent. -/
structure CapabilitiesObject where
  hasFlatbed : Option Bool
  hasADF : Option Bool
  duplex : Option Bool
deriving DecidableEq, Repr

/-- Scan settings as described by the ScanSettings struct in
twainWrapper.h. -/
structure ScanSettings where
  resolution : Nat
  colorMode : String
  paperSize : String
  useADF : Bool
  duplex : Bool
  brightness : Int
  contrast : Int
deriving DecidableEq, Repr

/-- The object returned by Scan.  The stubs set only success and
errorMessage; imageData, width, height, resolution and colorMode are
never set, hence Option fields that stay none. -/
structure ScanResult where
  success : Bool
  errorMessage : Option String
  imageData : Option String
  width : Option Nat
  height : Option Nat
  resolution : Option Nat
  colorMode : Option String
deriving DecidableEq, Repr

/-- Observable state of a TwainScanner instance: the members
isInitialized_ and selectedDeviceId_ of twainWrapper.h. -/
structure TwainState where
  isInitialized : Bool
  selectedDeviceId : String
deriving DecidableEq, Repr

/-- State after the TwainScanner constructor: isInitialized_(false) and a
default-constructed (empty) selectedDeviceId_. -/
def TwainState.new : TwainState :=
  { isInitialized := false, selectedDeviceId := "" }

/-- Observable state of a SaneScanner instance (saneWrapper.h). -/
structure SaneState where
  isInitialized : Bool
  selectedDeviceId : String
deriving DecidableEq, Repr

/-- State after the SaneScanner constructor. -/
def SaneState.new : SaneState :=
  { isInitialized := false, selectedDeviceId := "" }

/-- Observable state of a WiaScanner instance (wiaWrapper.h). -/
structure WiaState where
  isInitialized : Bool
  selectedDeviceId : String
deriving DecidableEq, Repr

/-- State after the WiaScanner constructor. -/
def WiaState.new : WiaState :=
  { isInitialized := false, selectedDeviceId := "" }

/-- The hard-coded mock device built by TwainScanner::EnumerateDevices
(twainWrapper.cpp lines 63-103). -/
def twainMockDevice : ScannerDevice :=
  { id := "twain-mock-001"
    name := "TWAIN Mock Scanner"
    manufacturer := "PaperFlow"
    model := "Virtual Scanner"
    available := true
    platform := "twain"
    capabilities :=
      { hasFlatbed := true
        hasADF := true
        duplex := true
        resolutions := [75, 150, 300, 600]
        colorModes := ["color", "grayscale", "blackwhite"]
        paperSizes := ["letter", "legal", "a4", "a5"]
        maxWidth := (17 : Rat) / 2
        maxHeight := 14 } }

namespace TwainScanner

/-- TwainScanner::Initialize: unconditionally sets isInitialized_ and
returns true. -/
def Initialize (s : TwainState) : Except NapiError Bool × TwainState :=
  (Except.ok true, { s with isInitialized := true })

/-- TwainScanner::EnumerateDevices: throws "TWAIN not initialized" when
isInitialized_ is false, otherwise returns the one-element array holding
the mock device. -/
def EnumerateDevices (s : TwainState) :
    Except NapiError (List ScannerDevice) × TwainState :=
  if s.isInitialized then (Except.ok [twainMockDevice], s)
  else (Except.error (NapiError.jsError "TWAIN not initialized"), s)

/-- TwainScanner::SelectDevice: the argument is modelled as Option
String, none standing for a missing or non-string info[0].  The method
throws a TypeError in that case and otherwise stores the string —
whatever it is — into selectedDeviceId_ and returns true. -/
def SelectDevice (s : TwainState) (arg : Option String) :
    Except NapiError Bool × TwainState :=
  match arg with
  | none => (Except.error (NapiError.jsTypeError "Device ID expected"), s)
  | some id => (Except.ok true, { s with selectedDeviceId := id })

/-- TwainScanner::GetCapabilities: no state check; returns a hard-coded
object with hasFlatbed, hasADF and duplex set to true. -/
def GetCapabilities (s : TwainState) :
    Except NapiError CapabilitiesObject × TwainState :=
  (Except.ok { hasFlatbed := some true, hasADF := some true,
               duplex := some true }, s)

/-- TwainScanner::Scan: throws "No device selected" when
selectedDeviceId_ is empty; otherwise ignores the settings and returns
the placeholder result with success=false. -/
def Scan (s : TwainState) (settings : ScanSettings) :
    Except NapiError ScanResult × TwainState :=
  if s.selectedDeviceId = "" then
    (Except.error (NapiError.jsError "No device selected"), s)
  else
    (Except.ok
      { success := false
        errorMessage :=
          some "TWAIN scanning not implemented - using mock scanner"
        imageData := none, width := none, height := none
        resolution := none, colorMode := none }, s)

/-- TwainScanner::CancelScan: returns true, state untouched. -/
def CancelScan (s : TwainState) : Except NapiError Bool × TwainState :=
  (Except.ok true, s)

/-- TwainScanner::Close: clears isInitialized_ and selectedDeviceId_,
returns true. -/
def Close (s : TwainState) : Except NapiError Bool × TwainState :=
  (Except.ok true, { s with isInitialized := false, selectedDeviceId := "" })

end TwainScanner

namespace SaneScanner

/-- SaneScanner::Initialize: unconditionally sets isInitialized_ and
returns true. -/
def Initialize (s : SaneState) : Except NapiError Bool × SaneState :=
  (Except.ok true, { s with isInitialized := true })

/-- SaneScanner::EnumerateDevices: no initialization check; returns an
empty array. -/
def EnumerateDevices (s : SaneState) :
    Except NapiError (List ScannerDevice) × SaneState :=
  (Except.ok [], s)

/-- SaneScanner::SelectDevice: TypeError when info[0] is missing or not
a string, otherwise stores the string and returns true. -/
def SelectDevice (s : SaneState) (arg : Option String) :
    Except NapiError Bool × SaneState :=
  match arg with
  | none => (Except.error (NapiError.jsTypeError "Device ID expected"), s)
  | some id => (Except.ok true, { s with selectedDeviceId := id })

/-- SaneScanner::GetCapabilities: no state check; returns an empty
object. -/
def GetCapabilities (s : SaneState) :
    Except NapiError CapabilitiesObject × SaneState :=
  (Except.ok { hasFlatbed := none, hasADF := none, duplex := none }, s)

/-- SaneScanner::Scan: no device check; returns the placeholder result
with success=false. -/
def Scan (s : SaneState) (settings : ScanSettings) :
    Except NapiError ScanResult × SaneState :=
  (Except.ok
    { success := false
      errorMessage := some "SANE scanning not implemented"
      imageData := none, width := none, height := none
      resolution := none, colorMode := none }, s)

/-- SaneScanner::CancelScan: returns true, state untouched. -/
def CancelScan (s : SaneState) : Except NapiError Bool × SaneState :=
  (Except.ok true, s)

/-- SaneScanner::Close: clears isInitialized_ only; selectedDeviceId_ is
left as it was. -/
def Close (s : SaneState) : Except NapiError Bool × SaneState :=
  (Except.ok true, { s with isInitialized := false })

end SaneScanner

namespace WiaScanner

/-- WiaScanner::Initialize: unconditionally sets isInitialized_ and
returns true. -/
def Initialize (s : WiaState) : Except NapiError Bool × WiaState :=
  (Except.ok true, { s with isInitialized := true })

/-- WiaScanner::EnumerateDevices: no initialization check; returns an
empty array. -/
def EnumerateDevices (s : WiaState) :
    Except NapiError (List ScannerDevice) × WiaState :=
  (Except.ok [], s)

/-- WiaScanner::SelectDevice: TypeError when info[0] is missing or not a
string, otherwise stores the string and returns true. -/
def SelectDevice (s : WiaState) (arg : Option String) :
    Except NapiError Bool × WiaState :=
  match arg with
  | none => (Except.error (NapiError.jsTypeError "Device ID expected"), s)
  | some id => (Except.ok true, { s with selectedDeviceId := id })

/-- WiaScanner::GetCapabilities: no state check; returns an empty
object. -/
def GetCapabilities (s : WiaState) :
    Except NapiError CapabilitiesObject × WiaState :=
  (Except.ok { hasFlatbed := none, hasADF := none, duplex := none }, s)

/-- WiaScanner::Scan: no device check; returns the placeholder result
with success=false. -/
def Scan (s : WiaState) (settings : ScanSettings) :
    Except NapiError ScanResult × WiaState :=
  (Except.ok
    { success := false
      errorMessage := some "WIA scanning not implemented"
      imageData := none, width := none, height := none
      resolution := none, colorMode := none }, s)

/-- WiaScanner::CancelScan: returns true, state untouched. -/
def CancelScan (s : WiaState) : Except NapiError Bool × WiaState :=
  (Except.ok true, s)

/-- WiaScanner::Close: clears isInitialized_ only; selectedDeviceId_ is
left as it was. -/
def Close (s : WiaState) : Except NapiError Bool × WiaState :=
  (Except.ok true, { s with isInitialized := false })

end WiaScanner

/-- The settings object of the specification's happy-path scenario:
resolution 300, color, letter, no ADF, no duplex. -/
def scenarioSettings : ScanSettings :=
  { resolution := 300, colorMode := "color", paperSize := "letter"
    useADF := false, duplex := false, brightness := 0, contrast := 0 }

/-- A settings object whose resolution 999 is not among the mock
capabilities resolutions [75, 150, 300, 600]. -/
def badResolutionSettings : ScanSettings :=
  { resolution := 999, colorMode := "color", paperSize := "letter"
    useADF := false, duplex := false, brightness := 0, contrast := 0 }

/-- C1: against the claim, TwainScanner::Scan performs no validation of
the settings against the capabilities: with the mock device selected and
resolution 999 (not a member of [75, 150, 300, 600], as recorded in
twainMockDevice), Scan does not produce an InvalidSettings failure
naming resolution; it returns the placeholder not-implemented result
with success=false, identical to what it returns for any settings. -/
theorem C1_scan_performs_no_validation :
    badResolutionSettings.resolution ∉
      twainMockDevice.capabilities.resolutions ∧
    TwainScanner.Scan
        { isInitialized := true, selectedDeviceId := "twain-mock-001" }
        badResolutionSettings =
      (Except.ok
        { success := false
          errorMessage :=
            some "TWAIN scanning not implemented - using mock scanner"
          imageData := none, width := none, height := none
          resolution := none, colorMode := none },
       { isInitialized := true, selectedDeviceId := "twain-mock-001" }) :=
  ⟨by decide, rfl⟩

/-- C2: against the claim, the happy-path scenario cannot succeed on the
code.  The only device the TWAIN backend ever enumerates has id
"twain-mock-001", not "mock-001"; SelectDevice("mock-001") nevertheless
returns true (the enumeration is never consulted), and the subsequent
Scan with valid settings returns success=false with a placeholder
errorMessage and no resolution or colorMode echo — not success=true with
resolution 300 and colorMode "color".  The SANE backend likewise returns
a success=false placeholder. -/
theorem C2_scenario_scan_cannot_succeed :
    ( TwainScanner.EnumerateDevices
        ( TwainScanner.Initialize TwainState.new).2).1 =
      Except.ok [twainMockDevice] ∧
    twainMockDevice.id = "twain-mock-001" ∧
    TwainScanner.SelectDevice
        ( TwainScanner.Initialize TwainState.new).2 (some "mock-001") =
      (Except.ok true,
       { isInitialized := true, selectedDeviceId := "mock-001" }) ∧
    ( TwainScanner.Scan
        { isInitialized := true, selectedDeviceId := "mock-001" }
        scenarioSettings).1 =
      Except.ok
        { success := false
          errorMessage :=
            some "TWAIN scanning not implemented - using mock scanner"
          imageData := none, width := none, height := none
          resolution := none, colorMode := none } ∧
    ( SaneScanner.Scan
        { isInitialized := true, selectedDeviceId := "mock-001" }
        scenarioSettings).1 =
      Except.ok
        { success := false
          errorMessage := some "SANE scanning not implemented"
          imageData := none, width := none, height := none
          resolution := none, colorMode := none } :=
  ⟨rfl, rfl, rfl, rfl, rfl⟩

/-- C3: against the claim, only the TWAIN backend rejects
EnumerateDevices before initialization.  On a freshly constructed
(Uninitialized) session, TwainScanner::EnumerateDevices does throw
"TWAIN not initialized", but SaneScanner::EnumerateDevices and
WiaScanner::EnumerateDevices perform no initialization check and return
a device sequence (the empty array) instead of failing. -/
theorem C3_enumerate_before_init :
    TwainScanner.EnumerateDevices TwainState.new =
      (Except.error (NapiError.jsError "TWAIN not initialized"),
       TwainState.new) ∧
    SaneScanner.EnumerateDevices SaneState.new =
      (Except.ok [], SaneState.new) ∧
    WiaScanner.EnumerateDevices WiaState.new =
      (Except.ok [], WiaState.new) :=
  ⟨rfl, rfl, rfl⟩

/-- C4: against the claim, SelectDevice never consults the enumeration.
After Initialize, EnumerateDevices returns only the device with id
"twain-mock-001"; SelectDevice("ghost-scanner"), an id not among the
enumerated ids, still returns true and installs "ghost-scanner" as the
selected device id instead of failing with DeviceNotFound. -/
theorem C4_select_unknown_id_succeeds :
    ( TwainScanner.EnumerateDevices
        { isInitialized := true, selectedDeviceId := "" }).1 =
      Except.ok [twainMockDevice] ∧
    "ghost-scanner" ∉ [twainMockDevice].map (fun d => d.id) ∧
    TwainScanner.SelectDevice
        { isInitialized := true, selectedDeviceId := "" }
        (some "ghost-scanner") =
      (Except.ok true,
       { isInitialized := true, selectedDeviceId := "ghost-scanner" }) :=
  ⟨rfl, by decide, rfl⟩

/-- C5: against the claim, SelectDevice("") does not fail with
InvalidArgument on any backend: the native check only tests that the
argument is present and is a string, which the empty string satisfies,
so the call returns true and the empty string overwrites the previously
stored selection. -/
theorem C5_select_empty_id_accepted :
    TwainScanner.SelectDevice
        { isInitialized := true, selectedDeviceId := "dev" } (some "") =
      (Except.ok true, { isInitialized := true, selectedDeviceId := "" }) ∧
    SaneScanner.SelectDevice
        { isInitialized := true, selectedDeviceId := "dev" } (some "") =
      (Except.ok true, { isInitialized := true, selectedDeviceId := "" }) ∧
    WiaScanner.SelectDevice
        { isInitialized := true, selectedDeviceId := "dev" } (some "") =
      (Except.ok true, { isInitialized := true, selectedDeviceId := "" }) :=
  ⟨rfl, rfl, rfl⟩

/-- C6: against the claim, Close clears the selected device id only on
the TWAIN backend.  SaneScanner::Close and WiaScanner::Close reset the
initialization flag and return true but leave selectedDeviceId_ holding
its previous value. -/
theorem C6_close_leaves_device_id_on_sane_wia :
    SaneScanner.Close { isInitialized := true, selectedDeviceId := "d1" } =
      (Except.ok true,
       { isInitialized := false, selectedDeviceId := "d1" }) ∧
    WiaScanner.Close { isInitialized := true, selectedDeviceId := "d2" } =
      (Except.ok true,
       { isInitialized := false, selectedDeviceId := "d2" }) ∧
    TwainScanner.Close { isInitialized := true, selectedDeviceId := "d3" } =
      (Except.ok true,
       { isInitialized := false, selectedDeviceId := "" }) :=
  ⟨rfl, rfl, rfl⟩

/-- C7: against the claim, only the TWAIN backend fails a Scan with no
device selected.  On a fresh session with empty selectedDeviceId_,
TwainScanner::Scan does throw "No device selected", but
SaneScanner::Scan and WiaScanner::Scan perform no device check and
return a generic success=false placeholder result instead of a
NoDeviceSelected error. -/
theorem C7_scan_without_device :
    TwainScanner.Scan TwainState.new scenarioSettings =
      (Except.error (NapiError.jsError "No device selected"),
       TwainState.new) ∧
    SaneScanner.Scan SaneState.new scenarioSettings =
      (Except.ok
        { success := false
          errorMessage := some "SANE scanning not implemented"
          imageData := none, width := none, height := none
          resolution := none, colorMode := none }, SaneState.new) ∧
    WiaScanner.Scan WiaState.new scenarioSettings =
      (Except.ok
        { success := false
          errorMessage := some "WIA scanning not implemented"
          imageData := none, width := none, height := none
          resolution := none, colorMode := none }, WiaState.new) :=
  ⟨rfl, rfl, rfl⟩

/-- C8: against the claim, no backend guards GetCapabilities with a
NoDeviceSelected check.  On a fresh session with no device selected,
TwainScanner::GetCapabilities returns a hard-coded capabilities object
and SaneScanner::GetCapabilities and WiaScanner::GetCapabilities return
an empty object — none of them fails. -/
theorem C8_getcapabilities_without_device :
    TwainScanner.GetCapabilities TwainState.new =
      (Except.ok { hasFlatbed := some true, hasADF := some true,
                   duplex := some true }, TwainState.new) ∧
    SaneScanner.GetCapabilities SaneState.new =
      (Except.ok { hasFlatbed := none, hasADF := none, duplex := none },
       SaneState.new) ∧
    WiaScanner.GetCapabilities WiaState.new =
      (Except.ok { hasFlatbed := none, hasADF := none, duplex := none },
       WiaState.new) :=
  ⟨rfl, rfl, rfl⟩

/-- C9: on every backend and from every session state, Initialize
returns true, a second Initialize also returns true, and the state after
the second call equals the state after the first (the second call is an
observable no-op), with the initialization flag set. -/
theorem C9_double_init_is_single_init (t : TwainState) (s : SaneState)
    (w : WiaState) :
    ( TwainScanner.Initialize t).1 = Except.ok true ∧
    TwainScanner.Initialize ( TwainScanner.Initialize t).2 =
      (Except.ok true, ( TwainScanner.Initialize t).2) ∧
    (( TwainScanner.Initialize t).2).isInitialized = true ∧
    ( SaneScanner.Initialize s).1 = Except.ok true ∧
    SaneScanner.Initialize ( SaneScanner.Initialize s).2 =
      (Except.ok true, ( SaneScanner.Initialize s).2) ∧
    (( SaneScanner.Initialize s).2).isInitialized = true ∧
    ( WiaScanner.Initialize w).1 = Except.ok true ∧
    WiaScanner.Initialize ( WiaScanner.Initialize w).2 =
      (Except.ok true, ( WiaScanner.Initialize w).2) ∧
    (( WiaScanner.Initialize w).2).isInitialized = true :=
  ⟨rfl, rfl, rfl, rfl, rfl, rfl, rfl, rfl, rfl⟩

/-- C10: on every backend, SelectDevice with any non-empty string
returns true and stores the string verbatim as the selected device id,
from every state — including an uninitialized one — with neither an
initialization check nor a lookup in any enumeration. -/
theorem C10_select_stores_any_id (t : TwainState) (s : SaneState)
    (w : WiaState) (id : String) (h : id ≠ "") :
    TwainScanner.SelectDevice t (some id) =
      (Except.ok true, { t with selectedDeviceId := id }) ∧
    SaneScanner.SelectDevice s (some id) =
      (Except.ok true, { s with selectedDeviceId := id }) ∧
    WiaScanner.SelectDevice w (some id) =
      (Except.ok true, { w with selectedDeviceId := id }) :=
  ⟨rfl, rfl, rfl⟩

/-- Witness for C10: a never-enumerated, non-empty id on a fresh
uninitialized TWAIN session is accepted and stored. -/
theorem C10_select_stores_any_id_witness :
    TwainScanner.SelectDevice TwainState.new (some "never-enumerated") =
      (Except.ok true,
       { isInitialized := false, selectedDeviceId := "never-enumerated" }) :=
  (C10_select_stores_any_id TwainState.new SaneState.new WiaState.new
    "never-enumerated" (by decide)).1

end PaperFlow
